import Mathlib

/-!
# MS5611 driver (`ms5611.c`, `ms5611.h`): shallow embedding and verification

The driver talks to the sensor through three STM32 HAL primitives
(`HAL_I2C_Master_Transmit`, `HAL_I2C_Mem_Read`, `HAL_Delay`) and does its
arithmetic in C `float`.

* `float` is modelled as IEEE-754 binary32 (`F32`): sign, integer significand
  and binary exponent, infinities and one NaN, with gradual underflow and
  round-to-nearest-even after every operation (each operation is evaluated in
  single precision, without fusing a multiplication with a following
  addition).  Every result of an operation is normalised, so equality of
  results is equality of the `float` data.
* The bus is modelled by a handle (`I2C_HandleTypeDef`) that answers every
  HAL call with a status and, for reads, the content of the receive buffer
  after the call (after a failed read: whatever the uninitialised local
  buffer holds); the calls made are recorded in the trace of the `World`.
* The functions return `void` and ignore the HAL statuses; they are modelled
  as total functions from `World` to `World`.
-/

set_option maxRecDepth 100000

namespace MS5611

/-! ## Binary floating point -/

/-- Auxiliary recursion of `bitLength`; the first argument bounds the number
of halvings. -/
def bitLengthAux : Nat → Nat → Nat
  | 0, _ => 0
  | fuel + 1, n => if n = 0 then 0 else bitLengthAux fuel (n / 2) + 1

/-- The number of binary digits of `n` (`0` for `n = 0`). -/
def bitLength (n : Nat) : Nat := bitLengthAux n n

/-- Round-to-nearest-even of the positive dyadic number `m * 2^e` to a binary
format with `prec` significand bits, least exponent `emin` and greatest
exponent `emax` (exponents of the integer significand).  The result is the
significand and exponent of the rounded value, normalised; `none` is
overflow. -/
def roundNE (prec : Nat) (emin emax : Int) (m : Nat) (e : Int) : Option (Nat × Int) :=
  if m = 0 then some (0, emin) else
  let len : Int := (bitLength m : Int)
  let e1 : Int := max (e + len - prec) emin
  if e1 ≤ e then
    if emax < e1 then none else some (m * 2 ^ (e - e1).toNat, e1)
  else
    let s : Nat := (e1 - e).toNat
    let q : Nat := m / 2 ^ s
    let r : Nat := m % 2 ^ s
    let half : Nat := 2 ^ (s - 1)
    let q1 : Nat := if half < r ∨ (r = half ∧ q % 2 = 1) then q + 1 else q
    let q2 : Nat := if q1 = 2 ^ prec then 2 ^ (prec - 1) else q1
    let e2 : Int := if q1 = 2 ^ prec then e1 + 1 else e1
    if emax < e2 then none else some (q2, e2)

/-- A positive rational `n / d` as a dyadic number with a sticky last bit:
the quotient is computed with at least `prec + 3` significant bits and its
last bit records whether anything was cut off, so that rounding the dyadic
number to `prec` bits equals rounding `n / d`. -/
def stickyDyadic (prec : Nat) (n d : Nat) : Nat × Int :=
  let k : Nat := prec + 3 + bitLength d - bitLength n
  let q : Nat := (n * 2 ^ k) / d
  let r : Nat := (n * 2 ^ k) % d
  (2 * q + (if r = 0 then 0 else 1), -((k : Int) + 1))

/-- Numerator and denominator of the decimal number `digits * 10^exp10`. -/
def decimalFraction (digits : Nat) (exp10 : Int) : Nat × Nat :=
  if 0 ≤ exp10 then (digits * 10 ^ exp10.toNat, 1) else (digits, 10 ^ (-exp10).toNat)

/-- A C `float`: an IEEE-754 binary32 datum.  `finite neg m e` is
`(-1)^neg * m * 2^e`. -/
inductive F32 where
  | finite (neg : Bool) (m : Nat) (e : Int)
  | inf (neg : Bool)
  | nan
  deriving DecidableEq, Repr

namespace F32

/-- Round the dyadic number `(-1)^neg * m * 2^e` to binary32. -/
def round (neg : Bool) (m : Nat) (e : Int) : F32 :=
  match roundNE 24 (-149) 104 m e with
  | none => inf neg
  | some (m1, e1) => finite neg m1 e1

/-- Conversion of an unsigned integer (`uint16_t`, `uint32_t`, a non-negative
`int`) to `float`. -/
def ofNat (n : Nat) : F32 := round false n 0

/-- Conversion of a signed integer (`int`, `long`) to `float`. -/
def ofInt (i : Int) : F32 := round (decide (i < 0)) i.natAbs 0

/-- A decimal floating constant with suffix `f`: `digits * 10^exp10` rounded
to binary32. -/
def ofDecimal (digits : Nat) (exp10 : Int) : F32 :=
  let nd := decimalFraction digits exp10
  if nd.1 = 0 then finite false 0 (-149) else
  let s := stickyDyadic 24 nd.1 nd.2
  round false s.1 s.2

/-- A decimal floating constant without suffix (type `double`) converted to
`float`: `digits * 10^exp10` rounded to binary64, then to binary32. -/
def ofDoubleDecimal (digits : Nat) (exp10 : Int) : F32 :=
  let nd := decimalFraction digits exp10
  if nd.1 = 0 then finite false 0 (-149) else
  let s := stickyDyadic 53 nd.1 nd.2
  match roundNE 53 (-1074) 971 s.1 s.2 with
  | none => inf false
  | some (m1, e1) => round false m1 e1

/-- Unary minus. -/
def neg : F32 → F32
  | finite s m e => finite (!s) m e
  | inf s => inf (!s)
  | nan => nan

/-- The signed integer `(-1)^s * m * 2^(e - e0)`, for `e0 ≤ e`. -/
def scaled (s : Bool) (m : Nat) (e e0 : Int) : Int :=
  if s then -((m * 2 ^ (e - e0).toNat : Nat) : Int) else ((m * 2 ^ (e - e0).toNat : Nat) : Int)

/-- Addition on `float`. -/
def add : F32 → F32 → F32
  | nan, _ => nan
  | _, nan => nan
  | inf s, inf t => if s = t then inf s else nan
  | inf s, finite _ _ _ => inf s
  | finite _ _ _, inf t => inf t
  | finite s m1 e1, finite t m2 e2 =>
    let e0 := min e1 e2
    let z : Int := scaled s m1 e1 e0 + scaled t m2 e2 e0
    if z = 0 then finite (s && t) 0 (-149) else round (decide (z < 0)) z.natAbs e0

/-- Subtraction on `float`. -/
def sub (a b : F32) : F32 := add a (neg b)

/-- Multiplication on `float`. -/
def mul : F32 → F32 → F32
  | nan, _ => nan
  | _, nan => nan
  | inf s, inf t => inf (xor s t)
  | inf s, finite t m _ => if m = 0 then nan else inf (xor s t)
  | finite s m _, inf t => if m = 0 then nan else inf (xor s t)
  | finite s m1 e1, finite t m2 e2 => round (xor s t) (m1 * m2) (e1 + e2)

/-- The comparison `a < b` on `float` (false when an operand is a NaN). -/
def lt : F32 → F32 → Bool
  | nan, _ => false
  | _, nan => false
  | inf s, inf t => s && !t
  | inf s, finite _ _ _ => s
  | finite _ _ _, inf t => !t
  | finite s m1 e1, finite t m2 e2 =>
    let e0 := min e1 e2
    decide (scaled s m1 e1 e0 < scaled t m2 e2 e0)

/-- The comparison `a <= b` on `float` (false when an operand is a NaN). -/
def le : F32 → F32 → Bool
  | nan, _ => false
  | _, nan => false
  | inf s, inf t => s || !t
  | inf s, finite _ _ _ => s
  | finite _ _ _, inf t => !t
  | finite s m1 e1, finite t m2 e2 =>
    let e0 := min e1 e2
    decide (scaled s m1 e1 e0 ≤ scaled t m2 e2 e0)

/-- The rational value of a finite datum (`none` for infinities and NaN). -/
def toRat : F32 → Option ℚ
  | finite s m e => some ((if s then -1 else 1) * (m : ℚ) * (2 : ℚ) ^ e)
  | _ => none

end F32

/-! ## The HAL seen from the driver -/

/-- Return status of the HAL transfer functions (`HAL_StatusTypeDef`). -/
inductive HAL_StatusTypeDef where
  | HAL_OK
  | HAL_ERROR
  | HAL_BUSY
  | HAL_TIMEOUT
  deriving DecidableEq, Repr

/-- A call of one of the three HAL primitives the driver uses, with its
arguments (for `HAL_I2C_Master_Transmit` the bytes handed over). -/
inductive HalCall where
  | I2C_Master_Transmit (devAddress : Nat) (data : List Nat) (timeout : Nat)
  | I2C_Mem_Read (devAddress memAddress memAddSize size timeout : Nat)
  | Delay (ms : Nat)
  deriving DecidableEq, Repr

/-- What a HAL transfer leaves behind: its return status and, for a read, the
bytes found in the receive buffer after the call (`buf i` is the content of
position `i`; after a failed read this is whatever the buffer holds). -/
structure HalReply where
  status : HAL_StatusTypeDef
  buf : Nat → Nat

/-- The I2C peripheral and the device behind it: the reply to a transfer,
given the HAL calls made before it and the transfer itself. -/
structure I2C_HandleTypeDef where
  reply : List HalCall → HalCall → HalReply

/-- Value of `I2C_MEMADD_SIZE_8BIT` in the STM32 HAL. -/
def I2C_MEMADD_SIZE_8BIT : Nat := 0x00000001

/-- Value of `HAL_MAX_DELAY` in the STM32 HAL. -/
def HAL_MAX_DELAY : Nat := 0xFFFFFFFF

/-! ## `ms5611.h` -/

def MS5611_I2C_ADDR : Nat := 0x77
def MS5611_I2C_ADDR_HAL : Nat := MS5611_I2C_ADDR <<< 1
def MS5611_CMD_RESET : Nat := 0x1E
def MS5611_CMD_CONV_D1 : Nat := 0x40
def MS5611_CMD_CONV_D2 : Nat := 0x50
def MS5611_CMD_ADC_READ : Nat := 0x00
def MS5611_CMD_READ_PROM : Nat := 0xA0
def MS5611_OSR_4096 : Nat := 0x08

/-! ## `ms5611.c` -/

def MS5611_CONV_DELAY_MS : Nat := 12

/-- The program state the driver works on: the file-scope array
`static float coeff[7]`, the two `float` objects that the pointer arguments
`temperature` and `pressure` of `MS5611_Measure` designate, and the HAL calls
made so far, oldest first. -/
structure World where
  coeff : Fin 7 → F32
  temperature : F32
  pressure : F32
  trace : List HalCall

/-- `HAL_Delay(ms)`. -/
def HAL_Delay (ms : Nat) (w : World) : World :=
  { w with trace := w.trace ++ [HalCall.Delay ms] }

/-- `MS5611_SendCommand`: one `HAL_I2C_Master_Transmit` of the byte `cmd`
(a `uint8_t`); the status returned by the HAL is discarded. -/
def MS5611_SendCommand (_hi2c : I2C_HandleTypeDef) (cmd : Nat) (w : World) : World :=
  { w with trace := w.trace ++
      [HalCall.I2C_Master_Transmit MS5611_I2C_ADDR_HAL [cmd % 256] HAL_MAX_DELAY] }

/-- `MS5611_ReadADC`: one `HAL_I2C_Mem_Read` of 3 bytes into `buf`, whose status
is discarded, then `((uint32_t)buf[0] << 16) | ((uint32_t)buf[1] << 8) | buf[2]`. -/
def MS5611_ReadADC (hi2c : I2C_HandleTypeDef) (w : World) : Nat × World :=
  let call := HalCall.I2C_Mem_Read MS5611_I2C_ADDR_HAL MS5611_CMD_ADC_READ
    I2C_MEMADD_SIZE_8BIT 3 HAL_MAX_DELAY
  let r := hi2c.reply w.trace call
  let buf : Nat → Nat := fun i => r.buf i % 256
  ((((buf 0 <<< 16) % 2 ^ 32) ||| ((buf 1 <<< 8) % 2 ^ 32) ||| buf 2) % 2 ^ 32,
   { w with trace := w.trace ++ [call] })

/-- `MS5611_ReadPROM`: one `HAL_I2C_Mem_Read` of 2 bytes at
`MS5611_CMD_READ_PROM + (index * 2)` (a `uint16_t` argument), whose status is
discarded, then `(buf[0] << 8) | buf[1]` returned as `uint16_t`. -/
def MS5611_ReadPROM (hi2c : I2C_HandleTypeDef) (index : Nat) (w : World) : Nat × World :=
  let call := HalCall.I2C_Mem_Read MS5611_I2C_ADDR_HAL
    ((MS5611_CMD_READ_PROM + index * 2) % 2 ^ 16) I2C_MEMADD_SIZE_8BIT 2 HAL_MAX_DELAY
  let r := hi2c.reply w.trace call
  let buf : Nat → Nat := fun i => r.buf i % 256
  (((buf 0 <<< 8) ||| buf 1) % 2 ^ 16, { w with trace := w.trace ++ [call] })

/-- `coeff[i] = v;` -/
def setCoeff (i : Fin 7) (v : F32) (w : World) : World :=
  { w with coeff := Function.update w.coeff i v }

/-- `MS5611_SetupConstants`. -/
def MS5611_SetupConstants (mathMode : Nat) (w : World) : World :=
  let w := setCoeff 0 (F32.ofInt 1) w
  let w := setCoeff 1 (F32.ofInt 32768) w
  let w := setCoeff 2 (F32.ofInt 65536) w
  let w := setCoeff 3 (F32.ofDoubleDecimal 390625 (-8)) w
  let w := setCoeff 4 (F32.ofDoubleDecimal 78125 (-7)) w
  let w := setCoeff 5 (F32.ofInt 256) w
  let w := setCoeff 6 (F32.ofDoubleDecimal 11920928955 (-17)) w
  if mathMode = 1 then
    let w := setCoeff 1 (F32.ofInt 65536) w
    let w := setCoeff 2 (F32.ofInt 131072) w
    let w := setCoeff 3 (F32.ofDoubleDecimal 78125 (-7)) w
    let w := setCoeff 4 (F32.ofDoubleDecimal 15625 (-6)) w
    w
  else w

/-- The body of the loop of `MS5611_Init` for `reg < 7`:
`promValue = MS5611_ReadPROM(hi2c, reg); coeff[reg] *= promValue;`. -/
def MS5611_Init_body (hi2c : I2C_HandleTypeDef) (reg : Fin 7) (w : World) : World :=
  let rd := MS5611_ReadPROM hi2c reg.val w
  setCoeff reg (F32.mul (rd.2.coeff reg) (F32.ofNat rd.1)) rd.2

/-- The loop `for (uint8_t reg = 0; reg < 7; reg++)` of `MS5611_Init`, entered
with the counter at `reg`. -/
def MS5611_Init_loop (hi2c : I2C_HandleTypeDef) (reg : Nat) (w : World) : World :=
  if h : reg < 7 then
    MS5611_Init_loop hi2c ((reg + 1) % 256) (MS5611_Init_body hi2c ⟨reg, h⟩ w)
  else w
termination_by 7 - reg
decreasing_by omega

/-- `MS5611_Init` (it returns `void`). -/
def MS5611_Init (hi2c : I2C_HandleTypeDef) (mathMode : Nat) (w : World) : World :=
  let w := MS5611_SendCommand hi2c MS5611_CMD_RESET w
  let w := HAL_Delay 3 w
  let w := MS5611_SetupConstants mathMode w
  MS5611_Init_loop hi2c 0 w

/-- `float dT = D2 - coeff[5];` -/
def MS5611_Measure_dT (coeff : Fin 7 → F32) (D2 : Nat) : F32 :=
  F32.sub (F32.ofNat D2) (coeff 5)

/-- `float TEMP = 2000 + dT * coeff[6];` -/
def MS5611_Measure_TEMP (coeff : Fin 7 → F32) (D2 : Nat) : F32 :=
  F32.add (F32.ofInt 2000) (F32.mul (MS5611_Measure_dT coeff D2) (coeff 6))

/-- `float OFF = coeff[2] + dT * coeff[4];` -/
def MS5611_Measure_OFF (coeff : Fin 7 → F32) (D2 : Nat) : F32 :=
  F32.add (coeff 2) (F32.mul (MS5611_Measure_dT coeff D2) (coeff 4))

/-- `float SENS = coeff[1] + dT * coeff[3];` -/
def MS5611_Measure_SENS (coeff : Fin 7 → F32) (D2 : Nat) : F32 :=
  F32.add (coeff 1) (F32.mul (MS5611_Measure_dT coeff D2) (coeff 3))

/-- The last three statements of `MS5611_Measure`, from the final `TEMP`,
`OFF` and `SENS`: `P = (D1 * SENS * 4.76837158205E-7f - OFF) * 3.051757813E-5f`,
and the pair of the values stored to `*temperature` (`TEMP * 0.01f`) and to
`*pressure` (`P`). -/
def MS5611_Measure_output (D1 : Nat) (TEMP OFF SENS : F32) : F32 × F32 :=
  let P := F32.mul
    (F32.sub (F32.mul (F32.mul (F32.ofNat D1) SENS) (F32.ofDecimal 476837158205 (-18))) OFF)
    (F32.ofDecimal 3051757813 (-14))
  (F32.mul TEMP (F32.ofDecimal 1 (-2)), P)

/-- The arithmetic of `MS5611_Measure` (the statements after the two
conversions), on the coefficients `coeff` and the raw readings `D1`, `D2`;
the result is the pair of the values stored to `*temperature` and
`*pressure`. -/
def MS5611_Measure_calc (coeff : Fin 7 → F32) (D1 D2 : Nat) : F32 × F32 :=
  let dT := MS5611_Measure_dT coeff D2
  let TEMP := MS5611_Measure_TEMP coeff D2
  let OFF := MS5611_Measure_OFF coeff D2
  let SENS := MS5611_Measure_SENS coeff D2
  if F32.lt TEMP (F32.ofInt 2000) then
    let T2 := F32.mul (F32.mul dT dT) (F32.ofDecimal 46566128731 (-20))
    let tempDiff := F32.mul (F32.sub TEMP (F32.ofInt 2000)) (F32.sub TEMP (F32.ofInt 2000))
    let OFF2 := F32.mul (F32.ofDecimal 25 (-1)) tempDiff
    let SENS2 := F32.mul (F32.ofDecimal 125 (-2)) tempDiff
    if F32.lt TEMP (F32.ofInt (-1500)) then
      let tempDiff := F32.mul (F32.add TEMP (F32.ofInt 1500)) (F32.add TEMP (F32.ofInt 1500))
      let OFF2 := F32.add OFF2 (F32.mul (F32.ofInt 7) tempDiff)
      let SENS2 := F32.add SENS2 (F32.mul (F32.ofDecimal 55 (-1)) tempDiff)
      MS5611_Measure_output D1 (F32.sub TEMP T2) (F32.sub OFF OFF2) (F32.sub SENS SENS2)
    else
      MS5611_Measure_output D1 (F32.sub TEMP T2) (F32.sub OFF OFF2) (F32.sub SENS SENS2)
  else
    MS5611_Measure_output D1 TEMP OFF SENS

/-- `MS5611_Measure` (it returns `void`). -/
def MS5611_Measure (hi2c : I2C_HandleTypeDef) (w : World) : World :=
  let w := MS5611_SendCommand hi2c (MS5611_CMD_CONV_D1 ||| MS5611_OSR_4096) w
  let w := HAL_Delay MS5611_CONV_DELAY_MS w
  let d1 := MS5611_ReadADC hi2c w
  let w := MS5611_SendCommand hi2c (MS5611_CMD_CONV_D2 ||| MS5611_OSR_4096) d1.2
  let w := HAL_Delay MS5611_CONV_DELAY_MS w
  let d2 := MS5611_ReadADC hi2c w
  let out := MS5611_Measure_calc d2.2.coeff d1.1 d2.1
  { d2.2 with temperature := out.1, pressure := out.2 }

/-! ## Observations used in the statements -/

/-- The 24-bit number held by a 3-byte receive buffer, first byte most
significant. -/
def word24 (r : HalReply) : Nat :=
  (r.buf 0 % 256) * 65536 + (r.buf 1 % 256) * 256 + r.buf 2 % 256

/-- The 16-bit number held by a 2-byte receive buffer, first byte most
significant. -/
def word16 (r : HalReply) : Nat :=
  (r.buf 0 % 256) * 256 + r.buf 1 % 256

/-- The HAL call that sends the one command byte `cmd`. -/
def sendCall (cmd : Nat) : HalCall :=
  HalCall.I2C_Master_Transmit 0xEE [cmd] 0xFFFFFFFF

/-- The HAL call that reads `size` bytes at the 8-bit memory address `addr`. -/
def readCall (addr size : Nat) : HalCall :=
  HalCall.I2C_Mem_Read 0xEE addr 1 size 0xFFFFFFFF

/-- The HAL calls of one `MS5611_Measure`, in order. -/
def measureCalls : List HalCall :=
  [sendCall 0x48, HalCall.Delay 12, readCall 0x00 3,
   sendCall 0x58, HalCall.Delay 12, readCall 0x00 3]

/-- The reply of the device to the first ADC read of a `MS5611_Measure` started
in the state `w`. -/
def replyD1 (hi2c : I2C_HandleTypeDef) (w : World) : HalReply :=
  hi2c.reply (w.trace ++ measureCalls.take 2) (readCall 0x00 3)

/-- The reply of the device to the second ADC read of a `MS5611_Measure`
started in the state `w`. -/
def replyD2 (hi2c : I2C_HandleTypeDef) (w : World) : HalReply :=
  hi2c.reply (w.trace ++ measureCalls.take 5) (readCall 0x00 3)

/-- The raw pressure reading `D1` delivered to a `MS5611_Measure` started in
the state `w`. -/
def rawD1 (hi2c : I2C_HandleTypeDef) (w : World) : Nat := word24 (replyD1 hi2c w)

/-- The raw temperature reading `D2` delivered to a `MS5611_Measure` started in
the state `w`. -/
def rawD2 (hi2c : I2C_HandleTypeDef) (w : World) : Nat := word24 (replyD2 hi2c w)

/-- The HAL calls of one `MS5611_Init`, in order. -/
def initCalls : List HalCall :=
  [sendCall 0x1E, HalCall.Delay 3,
   readCall 0xA0 2, readCall 0xA2 2, readCall 0xA4 2, readCall 0xA6 2,
   readCall 0xA8 2, readCall 0xAA 2, readCall 0xAC 2]

/-- The reply of the device to the PROM read number `i` (from 0) of a
`MS5611_Init` started in the state `w`. -/
def replyPROM (hi2c : I2C_HandleTypeDef) (w : World) (i : Nat) : HalReply :=
  hi2c.reply (w.trace ++ initCalls.take (2 + i)) (readCall (0xA0 + 2 * i) 2)

/-- The PROM word `w[i]` delivered to a `MS5611_Init` started in the state `w`:
the 16-bit word of the read at address `0xA0 + 2*i`. -/
def promWord (hi2c : I2C_HandleTypeDef) (w : World) (i : Nat) : Nat :=
  word16 (replyPROM hi2c w i)

/-- The values `MS5611_SetupConstants` stores, as a table. -/
def setupTable (mathMode : Nat) : List F32 :=
  if mathMode = 1 then
    [F32.ofInt 1, F32.ofInt 65536, F32.ofInt 131072, F32.ofDoubleDecimal 78125 (-7),
     F32.ofDoubleDecimal 15625 (-6), F32.ofInt 256, F32.ofDoubleDecimal 11920928955 (-17)]
  else
    [F32.ofInt 1, F32.ofInt 32768, F32.ofInt 65536, F32.ofDoubleDecimal 390625 (-8),
     F32.ofDoubleDecimal 78125 (-7), F32.ofInt 256, F32.ofDoubleDecimal 11920928955 (-17)]

/-- The reference compensation, written after the description of the
algorithm (steps 3 to 6 of the measurement): first-order `dT`, `TEMP`, `OFF`,
`SENS`; the second-order terms `T2`, `OFF2`, `SENS2`, the latter two with the
extra cold term when the uncorrected `TEMP` is below -1500; the correction
taken off only when the uncorrected `TEMP` is below 2000; the result is the
pair (temperature, pressure). -/
def referenceCompensation (C : Fin 7 → F32) (D1 D2 : Nat) : F32 × F32 :=
  let dT := F32.sub (F32.ofNat D2) (C 5)
  let TEMP := F32.add (F32.ofDecimal 2000 0) (F32.mul dT (C 6))
  let OFF := F32.add (C 2) (F32.mul dT (C 4))
  let SENS := F32.add (C 1) (F32.mul dT (C 3))
  let low := F32.lt TEMP (F32.ofDecimal 2000 0)
  let cold := F32.lt TEMP (F32.neg (F32.ofDecimal 1500 0))
  let T2 := F32.mul (F32.mul dT dT) (F32.ofDecimal 46566128731 (-20))
  let d := F32.mul (F32.sub TEMP (F32.ofDecimal 2000 0)) (F32.sub TEMP (F32.ofDecimal 2000 0))
  let d2 := F32.mul (F32.add TEMP (F32.ofDecimal 1500 0)) (F32.add TEMP (F32.ofDecimal 1500 0))
  let OFF2 :=
    if cold then F32.add (F32.mul (F32.ofDecimal 25 (-1)) d) (F32.mul (F32.ofDecimal 7 0) d2)
    else F32.mul (F32.ofDecimal 25 (-1)) d
  let SENS2 :=
    if cold then F32.add (F32.mul (F32.ofDecimal 125 (-2)) d) (F32.mul (F32.ofDecimal 55 (-1)) d2)
    else F32.mul (F32.ofDecimal 125 (-2)) d
  let TEMPc := if low then F32.sub TEMP T2 else TEMP
  let OFFc := if low then F32.sub OFF OFF2 else OFF
  let SENSc := if low then F32.sub SENS SENS2 else SENS
  (F32.mul TEMPc (F32.ofDecimal 1 (-2)),
   F32.mul
     (F32.sub (F32.mul (F32.mul (F32.ofNat D1) SENSc) (F32.ofDecimal 476837158205 (-18))) OFFc)
     (F32.ofDecimal 3051757813 (-14)))

/-- The selector `mathMode` of the description. -/
inductive MathMode where
  | Default
  | ApplicationNote
  deriving DecidableEq, Repr

/-- The value of the argument `mathMode` that selects a mode. -/
def MathMode.code : MathMode → Nat
  | MathMode.Default => 0
  | MathMode.ApplicationNote => 1

/-- The table of base scale constants of the description, each decimal
constant taken as a `float`. -/
def baseConstant : MathMode → Fin 7 → F32
  | MathMode.Default => fun i =>
    [F32.ofDecimal 1 0, F32.ofDecimal 32768 0, F32.ofDecimal 65536 0,
     F32.ofDecimal 390625 (-8), F32.ofDecimal 78125 (-7), F32.ofDecimal 256 0,
     F32.ofDecimal 11920928955 (-17)].getD i.val F32.nan
  | MathMode.ApplicationNote => fun i =>
    [F32.ofDecimal 1 0, F32.ofDecimal 65536 0, F32.ofDecimal 131072 0,
     F32.ofDecimal 78125 (-7), F32.ofDecimal 15625 (-6), F32.ofDecimal 256 0,
     F32.ofDecimal 11920928955 (-17)].getD i.val F32.nan

/-- The binary exponent of each base scale constant: every one of them is a
power of two as a `float`. -/
def baseExponent : MathMode → Fin 7 → Int
  | MathMode.Default => fun i => [0, 15, 16, -8, -7, 8, -23].getD i.val 0
  | MathMode.ApplicationNote => fun i => [0, 16, 17, -7, -6, 8, -23].getD i.val 0

/-- A device that answers by a script: the transfer made after `n` earlier HAL
calls gets the status and the receive-buffer bytes of entry `n` of the script
(status `HAL_OK` and zero bytes beyond the script). -/
def scriptedDevice (script : List (HAL_StatusTypeDef × List Nat)) : I2C_HandleTypeDef :=
  { reply := fun hist _ =>
      { status := (script.getD hist.length (HAL_StatusTypeDef.HAL_OK, [])).1
        buf := fun i => (script.getD hist.length (HAL_StatusTypeDef.HAL_OK, [])).2.getD i 0 } }

/-- A coefficient set given by a list (NaN beyond the list). -/
def coeffOfList (l : List F32) : Fin 7 → F32 := fun i => l.getD i.val F32.nan

/-- The `float` zero `0.0f`. -/
def zeroF : F32 := F32.finite false 0 (-149)

/-- The coefficient set of a sensor whose PROM holds the words of the
data-sheet example (`C1 = 40127`, `C2 = 36924`, `C3 = 23317`, `C4 = 23282`,
`C5 = 33464`, `C6 = 28312`), scaled with the default constants. -/
def sampleCoeff : Fin 7 → F32 :=
  coeffOfList
    [F32.ofNat 0,
     F32.mul (F32.ofInt 32768) (F32.ofNat 40127),
     F32.mul (F32.ofInt 65536) (F32.ofNat 36924),
     F32.mul (F32.ofDoubleDecimal 390625 (-8)) (F32.ofNat 23317),
     F32.mul (F32.ofDoubleDecimal 78125 (-7)) (F32.ofNat 23282),
     F32.mul (F32.ofInt 256) (F32.ofNat 33464),
     F32.mul (F32.ofDoubleDecimal 11920928955 (-17)) (F32.ofNat 28312)]

/-- A state with the coefficients `sampleCoeff`, both output objects zero and
no HAL call made yet. -/
def sampleWorld : World :=
  { coeff := sampleCoeff, temperature := zeroF, pressure := zeroF, trace := [] }

/-- A device that answers the two ADC reads of a first `MS5611_Measure` with
the bytes `d1` and `d2`, every transfer succeeding. -/
def deviceWithReadings (d1 d2 : List Nat) : I2C_HandleTypeDef :=
  scriptedDevice
    [(HAL_StatusTypeDef.HAL_OK, []), (HAL_StatusTypeDef.HAL_OK, []),
     (HAL_StatusTypeDef.HAL_OK, d1),
     (HAL_StatusTypeDef.HAL_OK, []), (HAL_StatusTypeDef.HAL_OK, []),
     (HAL_StatusTypeDef.HAL_OK, d2)]

/-- A device that answers the two ADC reads of a first `MS5611_Measure` with
`D1 = 9085466 = 0x8AA21A` and `D2 = 8569150 = 0x82C13E`. -/
def sampleDevice : I2C_HandleTypeDef :=
  deviceWithReadings [0x8A, 0xA2, 0x1A] [0x82, 0xC1, 0x3E]

/-- The sample coefficients with `C6 = 28000` in the PROM instead of `28312`:
then `dT = -2^20` gives the first-order `TEMP = -1500` exactly. -/
def coldCoeff : Fin 7 → F32 :=
  Function.update sampleCoeff 6
    (F32.mul (F32.ofDoubleDecimal 11920928955 (-17)) (F32.ofNat 28000))

/-- The sample state with the coefficients `coldCoeff`. -/
def coldWorld : World :=
  { coeff := coldCoeff, temperature := zeroF, pressure := zeroF, trace := [] }

/-- The illustrative coefficient set of the end-to-end example,
`[1, 46372900, 51364300, 198.0, 98.0, 33000, 1.1920928955e-7]`. -/
def exampleCoeff : Fin 7 → F32 :=
  coeffOfList
    [F32.ofDecimal 1 0, F32.ofDecimal 46372900 0, F32.ofDecimal 51364300 0,
     F32.ofDecimal 1980 (-1), F32.ofDecimal 980 (-1), F32.ofDecimal 33000 0,
     F32.ofDecimal 11920928955 (-17)]

/-- A state with the coefficients `exampleCoeff`. -/
def exampleWorld : World :=
  { coeff := exampleCoeff, temperature := zeroF, pressure := zeroF, trace := [] }

/-- A device whose PROM holds the data-sheet example words and whose read of
word 3 fails with `HAL_ERROR`, the receive buffer then holding `0xFF, 0xFF`. -/
def faultyPromDevice : I2C_HandleTypeDef :=
  scriptedDevice
    [(HAL_StatusTypeDef.HAL_OK, []), (HAL_StatusTypeDef.HAL_OK, []),
     (HAL_StatusTypeDef.HAL_OK, [0x00, 0x01]), (HAL_StatusTypeDef.HAL_OK, [0x9C, 0xBF]),
     (HAL_StatusTypeDef.HAL_OK, [0x90, 0x3C]), (HAL_StatusTypeDef.HAL_ERROR, [0xFF, 0xFF]),
     (HAL_StatusTypeDef.HAL_OK, [0x5A, 0xF2]), (HAL_StatusTypeDef.HAL_OK, [0x82, 0xB8]),
     (HAL_StatusTypeDef.HAL_OK, [0x6E, 0x98])]

/-- A device whose first ADC read succeeds with `D1 = 0x8AA21A` and whose
second ADC read fails with `HAL_ERROR`, the receive buffer then holding
`0x82, 0xC1, 0x3E`. -/
def faultyAdcDevice : I2C_HandleTypeDef :=
  scriptedDevice
    [(HAL_StatusTypeDef.HAL_OK, []), (HAL_StatusTypeDef.HAL_OK, []),
     (HAL_StatusTypeDef.HAL_OK, [0x8A, 0xA2, 0x1A]),
     (HAL_StatusTypeDef.HAL_OK, []), (HAL_StatusTypeDef.HAL_OK, []),
     (HAL_StatusTypeDef.HAL_ERROR, [0x82, 0xC1, 0x3E])]

/-- A device whose PROM reads and ADC reads all deliver zero bytes. -/
def blankDevice : I2C_HandleTypeDef := scriptedDevice []

/-! ## Lemmas on the floating-point model -/

theorem bitLengthAux_zero (fuel : Nat) : bitLengthAux fuel 0 = 0 := by
  cases fuel <;> simp [bitLengthAux]

theorem bitLengthAux_eq (fuel : Nat) :
    ∀ n k : Nat, n ≤ fuel → 2 ^ k ≤ n → n < 2 ^ (k + 1) → bitLengthAux fuel n = k + 1 := by
  induction fuel with
  | zero =>
    intro n k hn hk _
    have : 0 < 2 ^ k := Nat.two_pow_pos _
    omega
  | succ fuel ih =>
    intro n k hn hk hlt
    have hpos : 0 < 2 ^ k := Nat.two_pow_pos _
    have hn0 : n ≠ 0 := by omega
    simp only [bitLengthAux, hn0, if_false]
    cases k with
    | zero =>
      have h1 : n = 1 := by simp only [Nat.pow_zero, Nat.zero_add, Nat.pow_one] at hk hlt; omega
      subst h1
      simp [bitLengthAux_zero]
    | succ k =>
      have e1 : 2 ^ (k + 1) = 2 * 2 ^ k := by rw [Nat.pow_succ]; omega
      have e2 : 2 ^ (k + 1 + 1) = 2 * (2 * 2 ^ k) := by rw [Nat.pow_succ, e1]; omega
      rw [e1] at hk
      rw [e2] at hlt
      have := ih (n / 2) k (by omega) (by omega) (by rw [e1]; omega)
      rw [this]

theorem bitLength_eq (n k : Nat) (hk : 2 ^ k ≤ n) (hlt : n < 2 ^ (k + 1)) :
    bitLength n = k + 1 :=
  bitLengthAux_eq n n k (Nat.le_refl n) hk hlt

theorem bitLength_eq_log2 (n : Nat) (h : n ≠ 0) : bitLength n = Nat.log2 n + 1 :=
  bitLength_eq n (Nat.log2 n) (Nat.log2_self_le h) Nat.lt_log2_self

theorem bitLength_pos (n : Nat) (h : n ≠ 0) : 0 < bitLength n := by
  rw [bitLength_eq_log2 n h]; omega

theorem bitLength_lower (n : Nat) (h : n ≠ 0) : 2 ^ (bitLength n - 1) ≤ n := by
  rw [bitLength_eq_log2 n h]; exact Nat.log2_self_le h

theorem bitLength_upper (n : Nat) : n < 2 ^ bitLength n := by
  by_cases h : n = 0
  · subst h; exact Nat.two_pow_pos _
  · rw [bitLength_eq_log2 n h]; exact Nat.lt_log2_self

theorem bitLength_le (n p : Nat) (h : n < 2 ^ p) : bitLength n ≤ p := by
  by_cases h0 : n = 0
  · subst h0; simp [bitLength, bitLengthAux_zero]
  · have hl := bitLength_lower n h0
    have hp := bitLength_pos n h0
    by_contra hc
    have : 2 ^ p ≤ 2 ^ (bitLength n - 1) := Nat.pow_le_pow_right (by decide) (by omega)
    omega

/-- Rounding a number that already has at most `prec` digits only shifts it to
the normalised position. -/
theorem roundNE_short (prec : Nat) (emin emax : Int) (m : Nat) (e : Int) (hm : m ≠ 0)
    (hlen : bitLength m ≤ prec) (hmin : emin ≤ e + bitLength m - prec)
    (hmax : e + bitLength m - prec ≤ emax) :
    roundNE prec emin emax m e
      = some (m * 2 ^ (prec - bitLength m), e + bitLength m - prec) := by
  unfold roundNE
  simp only [hm, if_false]
  have h1 : max (e + (bitLength m : Int) - prec) emin = e + bitLength m - prec := by omega
  simp only [h1]
  have h2 : e + (bitLength m : Int) - prec ≤ e := by omega
  have h3 : ¬ emax < e + (bitLength m : Int) - prec := by omega
  have h4 : (e - (e + (bitLength m : Int) - prec)).toNat = prec - bitLength m := by omega
  simp only [h2, h3, h4, if_true, if_false]

/-- Rounding `2^t * m` for a normalised `prec`-digit `m` only drops the `t`
zero digits. -/
theorem roundNE_shifted (prec : Nat) (emin emax : Int) (t m : Nat) (e : Int) (hp : 0 < prec)
    (ht : 0 < t) (hlo : 2 ^ (prec - 1) ≤ m) (hhi : m < 2 ^ prec)
    (hmin : emin ≤ e + t) (hmax : e + t ≤ emax) :
    roundNE prec emin emax (2 ^ t * m) e = some (m, e + t) := by
  have hpos : 0 < 2 ^ t := Nat.two_pow_pos _
  have hm0 : 0 < m := Nat.lt_of_lt_of_le (Nat.two_pow_pos _) hlo
  have hne : 2 ^ t * m ≠ 0 := Nat.mul_ne_zero (by omega) (by omega)
  have hbl : bitLength (2 ^ t * m) = t + prec - 1 + 1 := by
    apply bitLength_eq
    · have : 2 ^ (t + prec - 1) = 2 ^ t * 2 ^ (prec - 1) := by
        rw [← Nat.pow_add]; congr 1; omega
      rw [this]; exact Nat.mul_le_mul_left _ hlo
    · have : 2 ^ (t + prec - 1 + 1) = 2 ^ t * 2 ^ prec := by
        rw [← Nat.pow_add]; congr 1; omega
      rw [this]; exact Nat.mul_lt_mul_of_pos_left hhi hpos
  unfold roundNE
  simp only [hne, if_false, hbl]
  have h1 : max (e + ((t + prec - 1 + 1 : Nat) : Int) - prec) emin = e + t := by omega
  simp only [h1]
  have h2 : ¬ (e + (t : Int) ≤ e) := by omega
  have h3 : (e + (t : Int) - e).toNat = t := by omega
  have hq : 2 ^ t * m / 2 ^ t = m := Nat.mul_div_cancel_left m hpos
  have hr : 2 ^ t * m % 2 ^ t = 0 := Nat.mul_mod_right _ _
  have hhalf : 0 < 2 ^ (t - 1) := Nat.two_pow_pos _
  have h4 : ¬ (2 ^ (t - 1) < 0 ∨ (0 = 2 ^ (t - 1) ∧ m % 2 = 1)) := by omega
  have h5 : ¬ (m = 2 ^ prec) := by omega
  have h6 : ¬ (emax < e + (t : Int)) := by omega
  simp only [h2, h3, hq, hr, h4, h5, h6, if_false]

namespace F32

theorem ofNat_zero : ofNat 0 = finite false 0 (-149) := by decide

theorem ofNat_pos (w : Nat) (h0 : w ≠ 0) (h : w < 2 ^ 24) :
    ofNat w = finite false (w * 2 ^ (24 - bitLength w)) ((bitLength w : Int) - 24) := by
  have hl := bitLength_le w 24 h
  unfold ofNat round
  rw [roundNE_short 24 (-149) 104 w 0 h0 hl (by omega) (by omega)]
  simp

theorem ofNat_pos_norm (w : Nat) (h0 : w ≠ 0) (h : w < 2 ^ 24) :
    2 ^ 23 ≤ w * 2 ^ (24 - bitLength w) ∧ w * 2 ^ (24 - bitLength w) < 2 ^ 24 := by
  have hl := bitLength_le w 24 h
  have hp := bitLength_pos w h0
  have e1 : 2 ^ 23 = 2 ^ (bitLength w - 1) * 2 ^ (24 - bitLength w) := by
    rw [← Nat.pow_add]; congr 1; omega
  have e2 : 2 ^ 24 = 2 ^ bitLength w * 2 ^ (24 - bitLength w) := by
    rw [← Nat.pow_add]; congr 1; omega
  constructor
  · rw [e1]; exact Nat.mul_le_mul_right _ (bitLength_lower w h0)
  · rw [e2]; exact Nat.mul_lt_mul_of_pos_right (bitLength_upper w) (Nat.two_pow_pos _)

/-- Multiplying a normalised number by the power of two `2^k` adds `k` to its
exponent, when the result is in the normal range. -/
theorem mul_pow2 (k : Int) (s : Bool) (m : Nat) (e : Int) (hlo : 2 ^ 23 ≤ m) (hhi : m < 2 ^ 24)
    (hmin : -149 ≤ k + e) (hmax : k + e ≤ 104) :
    mul (finite false (2 ^ 23) (k - 23)) (finite s m e) = finite s m (k + e) := by
  have hr := roundNE_shifted 24 (-149) 104 23 m (k - 23 + e) (by decide) (by decide) hlo hhi
    (by omega) (by omega)
  have : k - 23 + e + ((23 : Nat) : Int) = k + e := by omega
  rw [this] at hr
  simp only [mul, round, hr, Bool.false_xor]

theorem mul_pow2_zero (k : Int) : mul (finite false (2 ^ 23) k) (finite false 0 (-149))
    = finite false 0 (-149) := by
  simp [mul, round, roundNE]

/-- The product of the power of two `2^k` and a converted 16-bit word. -/
theorem mul_pow2_ofNat (k : Int) (w : Nat) (h : w < 2 ^ 16) (hmin : -126 ≤ k) (hmax : k ≤ 104) :
    mul (finite false (2 ^ 23) (k - 23)) (ofNat w)
      = if w = 0 then finite false 0 (-149)
        else finite false (w * 2 ^ (24 - bitLength w)) (k + ((bitLength w : Int) - 24)) := by
  by_cases h0 : w = 0
  · subst h0; rw [ofNat_zero, mul_pow2_zero]; simp
  · have h24 : w < 2 ^ 24 := Nat.lt_of_lt_of_le h (by decide)
    have hl := bitLength_le w 16 h
    have hp := bitLength_pos w h0
    have hn := ofNat_pos_norm w h0 h24
    rw [ofNat_pos w h0 h24, mul_pow2 k false _ _ hn.1 hn.2 (by omega) (by omega)]
    simp [h0]

theorem lt_irrefl (a : F32) : lt a a = false := by
  cases a <;> simp [lt]

theorem lt_of_le_false (a b : F32) (h : le a b = true) : lt b a = false := by
  cases a <;> cases b <;> simp_all [lt, le, min_comm]
  rcases h with h | h <;> simp [h]

end F32

/-- The value of a converted non-zero word scaled by `2^k`. -/
theorem scaled_word_value (k : Int) (w : Nat) (h : w < 2 ^ 24) :
    ((w * 2 ^ (24 - bitLength w) : Nat) : ℚ) * (2 : ℚ) ^ (k + ((bitLength w : Int) - 24))
      = (2 : ℚ) ^ k * (w : ℚ) := by
  have hl := bitLength_le w 24 h
  have h2 : (2 : ℚ) ≠ 0 := by norm_num
  have e1 : ((2 ^ (24 - bitLength w) : Nat) : ℚ) = (2 : ℚ) ^ ((24 : Int) - (bitLength w : Int)) := by
    rw [Nat.cast_pow, ← zpow_natCast]
    congr 1
    omega
  rw [Nat.cast_mul, e1, zpow_add₀ h2]
  have e2 : (2 : ℚ) ^ ((24 : Int) - (bitLength w : Int)) * (2 : ℚ) ^ ((bitLength w : Int) - 24)
      = 1 := by
    rw [← zpow_add₀ h2]
    have : (24 : Int) - (bitLength w : Int) + ((bitLength w : Int) - 24) = 0 := by omega
    rw [this, zpow_zero]
  calc (w : ℚ) * (2 : ℚ) ^ ((24 : Int) - (bitLength w : Int))
        * ((2 : ℚ) ^ k * (2 : ℚ) ^ ((bitLength w : Int) - 24))
      = (2 : ℚ) ^ k * (w : ℚ) * ((2 : ℚ) ^ ((24 : Int) - (bitLength w : Int))
          * (2 : ℚ) ^ ((bitLength w : Int) - 24)) := by ring
    _ = (2 : ℚ) ^ k * (w : ℚ) := by rw [e2, mul_one]

/-- The product of the power of two `2^k` and a converted 16-bit word is
exact. -/
theorem F32.toRat_mul_pow2_ofNat (k : Int) (w : Nat) (h : w < 2 ^ 16) (hmin : -126 ≤ k)
    (hmax : k ≤ 104) :
    F32.toRat (F32.mul (F32.finite false (2 ^ 23) (k - 23)) (F32.ofNat w))
      = some ((2 : ℚ) ^ k * (w : ℚ)) := by
  rw [F32.mul_pow2_ofNat k w h hmin hmax]
  by_cases h0 : w = 0
  · subst h0; simp [F32.toRat]
  · have h24 : w < 2 ^ 24 := Nat.lt_of_lt_of_le h (by decide)
    simp only [h0, if_false, F32.toRat, Bool.false_eq_true, one_mul]
    rw [scaled_word_value k w h24]

theorem baseExponent_range (mode : MathMode) (i : Fin 7) :
    -126 ≤ baseExponent mode i ∧ baseExponent mode i ≤ 104 := by
  cases mode <;> fin_cases i <;> decide

theorem setupTable_pow2 (mode : MathMode) (i : Fin 7) :
    (setupTable mode.code).getD i.val F32.nan
      = F32.finite false (2 ^ 23) (baseExponent mode i - 23) := by
  cases mode <;> fin_cases i <;> decide

theorem baseConstant_pow2 (mode : MathMode) (i : Fin 7) :
    baseConstant mode i = F32.finite false (2 ^ 23) (baseExponent mode i - 23) := by
  cases mode <;> fin_cases i <;> decide

/-! ## Lemmas on the byte assembly -/

theorem word24_lt (r : HalReply) : word24 r < 2 ^ 24 := by
  unfold word24
  have h0 := Nat.mod_lt (r.buf 0) (show 0 < 256 by decide)
  have h1 := Nat.mod_lt (r.buf 1) (show 0 < 256 by decide)
  have h2 := Nat.mod_lt (r.buf 2) (show 0 < 256 by decide)
  omega

theorem word16_lt (r : HalReply) : word16 r < 2 ^ 16 := by
  unfold word16
  have h0 := Nat.mod_lt (r.buf 0) (show 0 < 256 by decide)
  have h1 := Nat.mod_lt (r.buf 1) (show 0 < 256 by decide)
  omega

theorem or_bytes16 (a b : Nat) (hb : b < 256) :
    (a <<< 8) ||| b = a * 256 + b := by
  have h := Nat.mul_add_lt_is_or (show b < 2 ^ 8 from hb) a
  rw [Nat.shiftLeft_eq, Nat.mul_comm a (2 ^ 8), ← h, Nat.mul_comm]

theorem or_bytes24 (a b c : Nat) (ha : a < 256) (hb : b < 256) (hc : c < 256) :
    (((a <<< 16) % 2 ^ 32) ||| ((b <<< 8) % 2 ^ 32) ||| c) % 2 ^ 32
      = a * 65536 + b * 256 + c := by
  have e1 : (a <<< 16) % 2 ^ 32 = 2 ^ 16 * a := by
    rw [Nat.shiftLeft_eq]; simp only [Nat.reducePow]; omega
  have e2 : (b <<< 8) % 2 ^ 32 = 2 ^ 8 * b := by
    rw [Nat.shiftLeft_eq]; simp only [Nat.reducePow]; omega
  have h1 : 2 ^ 8 * b + c = 2 ^ 8 * b ||| c := Nat.mul_add_lt_is_or (show c < 2 ^ 8 from hc) b
  have h2 : 2 ^ 16 * a + (2 ^ 8 * b + c) = 2 ^ 16 * a ||| (2 ^ 8 * b + c) :=
    Nat.mul_add_lt_is_or (show 2 ^ 8 * b + c < 2 ^ 16 by simp only [Nat.reducePow]; omega) a
  rw [e1, e2, Nat.lor_assoc, ← h1, ← h2]
  simp only [Nat.reducePow]
  omega

theorem sendCommand_eq (hi2c : I2C_HandleTypeDef) (cmd : Nat) (h : cmd < 256) (w : World) :
    MS5611_SendCommand hi2c cmd w = { w with trace := w.trace ++ [sendCall cmd] } := by
  unfold MS5611_SendCommand sendCall
  rw [Nat.mod_eq_of_lt h]
  rfl

theorem ReadADC_fst (hi2c : I2C_HandleTypeDef) (w : World) :
    (MS5611_ReadADC hi2c w).1 = word24 (hi2c.reply w.trace (readCall 0x00 3)) := by
  unfold MS5611_ReadADC word24
  exact or_bytes24 _ _ _ (Nat.mod_lt _ (by decide)) (Nat.mod_lt _ (by decide))
    (Nat.mod_lt _ (by decide))

theorem ReadADC_snd (hi2c : I2C_HandleTypeDef) (w : World) :
    (MS5611_ReadADC hi2c w).2 = { w with trace := w.trace ++ [readCall 0x00 3] } := rfl

theorem promAddress_eq (index : Nat) (h : index < 7) :
    (MS5611_CMD_READ_PROM + index * 2) % 2 ^ 16 = 0xA0 + 2 * index := by
  unfold MS5611_CMD_READ_PROM; simp only [Nat.reducePow]; omega

theorem ReadPROM_fst (hi2c : I2C_HandleTypeDef) (index : Nat) (h : index < 7) (w : World) :
    (MS5611_ReadPROM hi2c index w).1
      = word16 (hi2c.reply w.trace (readCall (0xA0 + 2 * index) 2)) := by
  unfold MS5611_ReadPROM
  simp only [promAddress_eq index h]
  rw [or_bytes16 _ _ (Nat.mod_lt _ (by decide))]
  exact Nat.mod_eq_of_lt (word16_lt _)

theorem ReadPROM_snd (hi2c : I2C_HandleTypeDef) (index : Nat) (h : index < 7) (w : World) :
    (MS5611_ReadPROM hi2c index w).2
      = { w with trace := w.trace ++ [readCall (0xA0 + 2 * index) 2] } := by
  unfold MS5611_ReadPROM
  simp only [promAddress_eq index h]
  rfl

/-! ## Lemmas on `MS5611_Init` -/

theorem SetupConstants_eq (mathMode : Nat) (w : World) :
    MS5611_SetupConstants mathMode w
      = { w with coeff := fun i => (setupTable mathMode).getD i.val F32.nan } := by
  unfold MS5611_SetupConstants setupTable setCoeff
  by_cases h : mathMode = 1
  · simp only [h, if_true]
    congr 1
    funext i
    fin_cases i <;> rfl
  · simp only [h, if_false]
    congr 1
    funext i
    fin_cases i <;> rfl

theorem Init_body_eq (hi2c : I2C_HandleTypeDef) (reg : Fin 7) (w : World) :
    MS5611_Init_body hi2c reg w
      = { w with
          coeff := Function.update w.coeff reg (F32.mul (w.coeff reg) (F32.ofNat
            (word16 (hi2c.reply w.trace (readCall (0xA0 + 2 * reg.val) 2)))))
          trace := w.trace ++ [readCall (0xA0 + 2 * reg.val) 2] } := by
  unfold MS5611_Init_body setCoeff
  simp only [ReadPROM_fst _ _ reg.isLt, ReadPROM_snd _ _ reg.isLt]

theorem Init_loop_unroll (hi2c : I2C_HandleTypeDef) (w : World) :
    MS5611_Init_loop hi2c 0 w
      = MS5611_Init_body hi2c 6 (MS5611_Init_body hi2c 5 (MS5611_Init_body hi2c 4
          (MS5611_Init_body hi2c 3 (MS5611_Init_body hi2c 2 (MS5611_Init_body hi2c 1
            (MS5611_Init_body hi2c 0 w)))))) := by
  rw [MS5611_Init_loop]; simp only [show (0 : Nat) < 7 by decide, dite_true]
  rw [MS5611_Init_loop]; simp only [show (0 + 1) % 256 < 7 by decide, dite_true]
  rw [MS5611_Init_loop]; simp only [show ((0 + 1) % 256 + 1) % 256 < 7 by decide, dite_true]
  rw [MS5611_Init_loop]
  simp only [show (((0 + 1) % 256 + 1) % 256 + 1) % 256 < 7 by decide, dite_true]
  rw [MS5611_Init_loop]
  simp only [show ((((0 + 1) % 256 + 1) % 256 + 1) % 256 + 1) % 256 < 7 by decide, dite_true]
  rw [MS5611_Init_loop]
  simp only [show (((((0 + 1) % 256 + 1) % 256 + 1) % 256 + 1) % 256 + 1) % 256 < 7 by decide,
    dite_true]
  rw [MS5611_Init_loop]
  simp only [show ((((((0 + 1) % 256 + 1) % 256 + 1) % 256 + 1) % 256 + 1) % 256 + 1) % 256 < 7
    by decide, dite_true]
  rw [MS5611_Init_loop]
  simp only [show ¬ (((((((0 + 1) % 256 + 1) % 256 + 1) % 256 + 1) % 256 + 1) % 256 + 1) % 256
    + 1) % 256 < 7 by decide, dite_false]
  rfl

theorem Init_unfold (hi2c : I2C_HandleTypeDef) (mathMode : Nat) (w : World) :
    MS5611_Init hi2c mathMode w =
      { coeff := fun i => F32.mul ((setupTable mathMode).getD i.val F32.nan)
          (F32.ofNat (promWord hi2c w i.val))
        temperature := w.temperature
        pressure := w.pressure
        trace := w.trace ++ initCalls } := by
  unfold MS5611_Init
  rw [Init_loop_unroll, SetupConstants_eq, HAL_Delay,
    sendCommand_eq _ _ (show MS5611_CMD_RESET < 256 by decide)]
  have v3 : ((3 : Fin 7) : Nat) = 3 := rfl
  have v4 : ((4 : Fin 7) : Nat) = 4 := rfl
  have v5 : ((5 : Fin 7) : Nat) = 5 := rfl
  have v6 : ((6 : Fin 7) : Nat) = 6 := rfl
  simp only [Init_body_eq]
  congr 1
  · funext i
    fin_cases i <;>
      simp [Function.update, promWord, replyPROM, initCalls, MS5611_CMD_RESET, v3, v4, v5, v6]
  · simp [initCalls, MS5611_CMD_RESET, v3, v4, v5, v6]

/-- The coefficient `coeff[i]` after `MS5611_Init`, in terms of the PROM word. -/
theorem Init_coeff_form (mode : MathMode) (hi2c : I2C_HandleTypeDef) (w : World) (i : Fin 7) :
    (MS5611_Init hi2c mode.code w).coeff i
      = if promWord hi2c w i.val = 0 then F32.finite false 0 (-149)
        else F32.finite false
          (promWord hi2c w i.val * 2 ^ (24 - bitLength (promWord hi2c w i.val)))
          (baseExponent mode i + ((bitLength (promWord hi2c w i.val) : Int) - 24)) := by
  have hr := baseExponent_range mode i
  rw [Init_unfold]
  show F32.mul _ _ = _
  rw [setupTable_pow2]
  exact F32.mul_pow2_ofNat _ (promWord hi2c w i.val) (word16_lt _) hr.1 hr.2

/-- The coefficients of the two modes at one index differ exactly when the
base exponents differ and the PROM word is not zero. -/
theorem Init_modes_differ_iff (hi2c : I2C_HandleTypeDef) (w : World) (i : Fin 7) :
    (MS5611_Init hi2c 0 w).coeff i ≠ (MS5611_Init hi2c 1 w).coeff i
      ↔ (baseExponent MathMode.Default i ≠ baseExponent MathMode.ApplicationNote i
          ∧ promWord hi2c w i.val ≠ 0) := by
  have hA := Init_coeff_form MathMode.Default hi2c w i
  have hB := Init_coeff_form MathMode.ApplicationNote hi2c w i
  simp only [MathMode.code] at hA hB
  rw [hA, hB]
  by_cases h0 : promWord hi2c w i.val = 0
  · simp [h0]
  · simp only [h0, if_false, ne_eq, not_false_eq_true, and_true]
    constructor
    · intro h he
      apply h
      rw [he]
    · intro h he
      apply h
      injection he with _ _ h3
      omega

/-! ## Lemmas on `MS5611_Measure` -/

theorem Measure_unfold (hi2c : I2C_HandleTypeDef) (w : World) :
    MS5611_Measure hi2c w =
      { coeff := w.coeff
        temperature := (MS5611_Measure_calc w.coeff (rawD1 hi2c w) (rawD2 hi2c w)).1
        pressure := (MS5611_Measure_calc w.coeff (rawD1 hi2c w) (rawD2 hi2c w)).2
        trace := w.trace ++ measureCalls } := by
  have c1 : MS5611_CMD_CONV_D1 ||| MS5611_OSR_4096 = 0x48 := by decide
  have c2 : MS5611_CMD_CONV_D2 ||| MS5611_OSR_4096 = 0x58 := by decide
  unfold MS5611_Measure
  simp only [c1, c2, sendCommand_eq _ _ (show 0x48 < 256 by decide),
    sendCommand_eq _ _ (show 0x58 < 256 by decide), HAL_Delay, ReadADC_fst, ReadADC_snd,
    MS5611_CONV_DELAY_MS, rawD1, rawD2, replyD1, replyD2, measureCalls, List.take,
    List.append_assoc, List.cons_append, List.nil_append]

theorem Measure_trace (hi2c : I2C_HandleTypeDef) (w : World) :
    (MS5611_Measure hi2c w).trace = w.trace ++ measureCalls := by
  rw [Measure_unfold]

theorem Measure_coeff (hi2c : I2C_HandleTypeDef) (w : World) :
    (MS5611_Measure hi2c w).coeff = w.coeff := rfl

theorem Measure_out (hi2c : I2C_HandleTypeDef) (w : World) :
    ((MS5611_Measure hi2c w).temperature, (MS5611_Measure hi2c w).pressure)
      = MS5611_Measure_calc w.coeff (rawD1 hi2c w) (rawD2 hi2c w) := by
  rw [Measure_unfold]

theorem referenceCompensation_eq (C : Fin 7 → F32) (D1 D2 : Nat) :
    MS5611_Measure_calc C D1 D2 = referenceCompensation C D1 D2 := by
  have k2000 : F32.ofDecimal 2000 0 = F32.ofInt 2000 := by decide
  have k1500 : F32.ofDecimal 1500 0 = F32.ofInt 1500 := by decide
  have km1500 : F32.neg (F32.ofInt 1500) = F32.ofInt (-1500) := by decide
  have k7 : F32.ofDecimal 7 0 = F32.ofInt 7 := by decide
  unfold referenceCompensation MS5611_Measure_calc MS5611_Measure_output MS5611_Measure_TEMP
    MS5611_Measure_OFF MS5611_Measure_SENS MS5611_Measure_dT
  simp only [k2000, k1500, km1500, k7]
  cases F32.lt (F32.add (F32.ofInt 2000) (F32.mul (F32.sub (F32.ofNat D2) (C 5)) (C 6)))
      (F32.ofInt 2000) <;>
    cases F32.lt (F32.add (F32.ofInt 2000) (F32.mul (F32.sub (F32.ofNat D2) (C 5)) (C 6)))
      (F32.ofInt (-1500)) <;>
    simp only [if_true, if_false, Bool.false_eq_true]

/-! ## The claims -/

/-- C1: for every coefficient set `C` and every pair of 24-bit raw readings
`(D1, D2)` delivered by the device, `MS5611_Measure` stores exactly the
reference compensation of `C`, `D1`, `D2`: its temperature to `*temperature`
and its pressure to `*pressure`. -/
theorem C1_measure_is_reference_compensation (C : Fin 7 → F32) (D1 D2 : Nat)
    (hi2c : I2C_HandleTypeDef) (w : World) (_h1 : D1 < 2 ^ 24) (_h2 : D2 < 2 ^ 24)
    (hC : w.coeff = C) (hD1 : rawD1 hi2c w = D1) (hD2 : rawD2 hi2c w = D2) :
    (MS5611_Measure hi2c w).temperature = (referenceCompensation C D1 D2).1 ∧
    (MS5611_Measure hi2c w).pressure = (referenceCompensation C D1 D2).2 := by
  rw [Measure_unfold, hC, hD1, hD2, referenceCompensation_eq]
  exact ⟨rfl, rfl⟩

/-- Witness of C1: the data-sheet example readings `D1 = 9085466`,
`D2 = 8569150` with the coefficients `sampleCoeff`. -/
theorem C1_measure_is_reference_compensation_witness :
    (9085466 < 2 ^ 24 ∧ 8569150 < 2 ^ 24 ∧ sampleWorld.coeff = sampleCoeff ∧
      rawD1 sampleDevice sampleWorld = 9085466 ∧ rawD2 sampleDevice sampleWorld = 8569150) ∧
    ((MS5611_Measure sampleDevice sampleWorld).temperature
        = (referenceCompensation sampleCoeff 9085466 8569150).1 ∧
     (MS5611_Measure sampleDevice sampleWorld).pressure
        = (referenceCompensation sampleCoeff 9085466 8569150).2) :=
  ⟨⟨by decide, by decide, rfl, by decide, by decide⟩,
   C1_measure_is_reference_compensation sampleCoeff 9085466 8569150 sampleDevice sampleWorld
     (by decide) (by decide) rfl (by decide) (by decide)⟩

/-- C8: every `MS5611_Measure` appends exactly six HAL calls to the trace, in
this order: transmit the byte `0x48 = 0x40 | 0x08`, delay 12 ms, read 3 bytes
at memory address `0x00`, transmit `0x58 = 0x50 | 0x08`, delay 12 ms, read 3
bytes at `0x00`.  The values it computes with are `D1`, the three bytes of the
first read taken most significant first, and `D2`, those of the second read;
both are below `2^24`. -/
theorem C8_measure_bus_sequence (hi2c : I2C_HandleTypeDef) (w : World) :
    (MS5611_Measure hi2c w).trace = w.trace ++
      [HalCall.I2C_Master_Transmit 0xEE [0x48] 0xFFFFFFFF, HalCall.Delay 12,
       HalCall.I2C_Mem_Read 0xEE 0x00 1 3 0xFFFFFFFF,
       HalCall.I2C_Master_Transmit 0xEE [0x58] 0xFFFFFFFF, HalCall.Delay 12,
       HalCall.I2C_Mem_Read 0xEE 0x00 1 3 0xFFFFFFFF] ∧
    (0x48 = MS5611_CMD_CONV_D1 ||| MS5611_OSR_4096 ∧
     0x58 = MS5611_CMD_CONV_D2 ||| MS5611_OSR_4096) ∧
    (∀ r1 r2 : HalReply,
      r1 = hi2c.reply
        (w.trace ++ [HalCall.I2C_Master_Transmit 0xEE [0x48] 0xFFFFFFFF, HalCall.Delay 12])
        (HalCall.I2C_Mem_Read 0xEE 0x00 1 3 0xFFFFFFFF) →
      r2 = hi2c.reply
        (w.trace ++ [HalCall.I2C_Master_Transmit 0xEE [0x48] 0xFFFFFFFF, HalCall.Delay 12,
          HalCall.I2C_Mem_Read 0xEE 0x00 1 3 0xFFFFFFFF,
          HalCall.I2C_Master_Transmit 0xEE [0x58] 0xFFFFFFFF, HalCall.Delay 12])
        (HalCall.I2C_Mem_Read 0xEE 0x00 1 3 0xFFFFFFFF) →
      ∀ D1 D2 : Nat,
      D1 = (r1.buf 0 % 256) * 65536 + (r1.buf 1 % 256) * 256 + r1.buf 2 % 256 →
      D2 = (r2.buf 0 % 256) * 65536 + (r2.buf 1 % 256) * 256 + r2.buf 2 % 256 →
      D1 < 2 ^ 24 ∧ D2 < 2 ^ 24 ∧
      ((MS5611_Measure hi2c w).temperature, (MS5611_Measure hi2c w).pressure)
        = MS5611_Measure_calc w.coeff D1 D2) := by
  refine ⟨?_, ⟨by decide, by decide⟩, ?_⟩
  · rw [Measure_trace]; rfl
  · intro r1 r2 hr1 hr2 D1 D2 hD1 hD2
    have e1 : D1 = rawD1 hi2c w := by rw [hD1, hr1]; rfl
    have e2 : D2 = rawD2 hi2c w := by rw [hD2, hr2]; rfl
    refine ⟨?_, ?_, ?_⟩
    · rw [e1]; exact word24_lt _
    · rw [e2]; exact word24_lt _
    · rw [e1, e2]; exact Measure_out hi2c w

/-- Witness of C8 on the sample device: the two reads deliver
`0x8A, 0xA2, 0x1A` and `0x82, 0xC1, 0x3E`, that is `D1 = 9085466` and
`D2 = 8569150`. -/
theorem C8_measure_bus_sequence_witness :
    9085466 < 2 ^ 24 ∧ 8569150 < 2 ^ 24 ∧
    ((MS5611_Measure sampleDevice sampleWorld).temperature,
     (MS5611_Measure sampleDevice sampleWorld).pressure)
      = MS5611_Measure_calc sampleWorld.coeff 9085466 8569150 :=
  (C8_measure_bus_sequence sampleDevice sampleWorld).2.2 _ _ rfl rfl 9085466 8569150
    (by decide) (by decide)

/-- C9: every `MS5611_Init` appends exactly nine HAL calls to the trace, in
this order: transmit the reset byte `0x1E`, delay 3 ms, then seven reads of 2
bytes at the memory addresses `0xA0, 0xA2, 0xA4, 0xA6, 0xA8, 0xAA, 0xAC`, the
read number `index` being at `0xA0 + 2 * index`. -/
theorem C9_init_bus_sequence (hi2c : I2C_HandleTypeDef) (mathMode : Nat) (w : World) :
    (MS5611_Init hi2c mathMode w).trace = w.trace ++
      [HalCall.I2C_Master_Transmit 0xEE [0x1E] 0xFFFFFFFF, HalCall.Delay 3,
       HalCall.I2C_Mem_Read 0xEE 0xA0 1 2 0xFFFFFFFF,
       HalCall.I2C_Mem_Read 0xEE 0xA2 1 2 0xFFFFFFFF,
       HalCall.I2C_Mem_Read 0xEE 0xA4 1 2 0xFFFFFFFF,
       HalCall.I2C_Mem_Read 0xEE 0xA6 1 2 0xFFFFFFFF,
       HalCall.I2C_Mem_Read 0xEE 0xA8 1 2 0xFFFFFFFF,
       HalCall.I2C_Mem_Read 0xEE 0xAA 1 2 0xFFFFFFFF,
       HalCall.I2C_Mem_Read 0xEE 0xAC 1 2 0xFFFFFFFF] ∧
    ∀ index : Fin 7,
      ((MS5611_Init hi2c mathMode w).trace.drop (w.trace.length + 2)).get? index.val
        = some (HalCall.I2C_Mem_Read 0xEE (0xA0 + 2 * index.val) 1 2 0xFFFFFFFF) := by
  rw [Init_unfold]
  refine ⟨rfl, ?_⟩
  intro index
  simp only [List.drop_append_eq_append_drop, List.drop_of_length_le (Nat.le_add_right _ _),
    Nat.add_sub_cancel_left, List.nil_append]
  fin_cases index <;> rfl

/-- C10: `MS5611_Measure` leaves all seven coefficients as they were, and its
two outputs are determined by the coefficients and the raw pair `(D1, D2)`:
two calls, on any devices and in any states, with the same coefficients and
the same raw pair store the same temperature and the same pressure. -/
theorem C10_measure_no_hidden_state :
    (∀ (hi2c : I2C_HandleTypeDef) (w : World) (i : Fin 7),
      (MS5611_Measure hi2c w).coeff i = w.coeff i) ∧
    (∀ (hi2c hi2c' : I2C_HandleTypeDef) (w w' : World),
      w.coeff = w'.coeff → rawD1 hi2c w = rawD1 hi2c' w' → rawD2 hi2c w = rawD2 hi2c' w' →
      (MS5611_Measure hi2c w).temperature = (MS5611_Measure hi2c' w').temperature ∧
      (MS5611_Measure hi2c w).pressure = (MS5611_Measure hi2c' w').pressure) := by
  refine ⟨fun hi2c w i => rfl, ?_⟩
  intro hi2c hi2c' w w' hc h1 h2
  rw [Measure_unfold hi2c w, Measure_unfold hi2c' w', hc, h1, h2]
  exact ⟨rfl, rfl⟩

/-- Witness of C10: the sample device in the sample state, against a device
that reports `HAL_BUSY` and `HAL_ERROR` and is used in a state with one
earlier HAL call and other values in the output objects. -/
theorem C10_measure_no_hidden_state_witness :
    (MS5611_Measure sampleDevice sampleWorld).temperature
      = (MS5611_Measure
          (scriptedDevice
            [(HAL_StatusTypeDef.HAL_OK, []), (HAL_StatusTypeDef.HAL_BUSY, []),
             (HAL_StatusTypeDef.HAL_OK, []), (HAL_StatusTypeDef.HAL_ERROR, [0x8A, 0xA2, 0x1A]),
             (HAL_StatusTypeDef.HAL_OK, []), (HAL_StatusTypeDef.HAL_OK, []),
             (HAL_StatusTypeDef.HAL_TIMEOUT, [0x82, 0xC1, 0x3E])])
          { coeff := sampleCoeff, temperature := F32.nan, pressure := F32.inf true,
            trace := [HalCall.Delay 1] }).temperature ∧
    (MS5611_Measure sampleDevice sampleWorld).pressure
      = (MS5611_Measure
          (scriptedDevice
            [(HAL_StatusTypeDef.HAL_OK, []), (HAL_StatusTypeDef.HAL_BUSY, []),
             (HAL_StatusTypeDef.HAL_OK, []), (HAL_StatusTypeDef.HAL_ERROR, [0x8A, 0xA2, 0x1A]),
             (HAL_StatusTypeDef.HAL_OK, []), (HAL_StatusTypeDef.HAL_OK, []),
             (HAL_StatusTypeDef.HAL_TIMEOUT, [0x82, 0xC1, 0x3E])])
          { coeff := sampleCoeff, temperature := F32.nan, pressure := F32.inf true,
            trace := [HalCall.Delay 1] }).pressure :=
  C10_measure_no_hidden_state.2 sampleDevice _ sampleWorld _ rfl (by decide) (by decide)

/-- C2: for both math modes, every device and every prior state, after
`MS5611_Init` each coefficient `coeff[i]` is the `float` product of the base
constant `base[mathMode][i]` and the PROM word `w[i]` read at `0xA0 + 2*i`,
and this product is exact: the base constant is the power of two
`2^baseExponent`, and the value of `coeff[i]` is `2^baseExponent * w[i]`
without rounding. -/
theorem C2_init_coefficients (mode : MathMode) (hi2c : I2C_HandleTypeDef) (w : World)
    (i : Fin 7) :
    (MS5611_Init hi2c mode.code w).coeff i
      = F32.mul (baseConstant mode i) (F32.ofNat (promWord hi2c w i.val)) ∧
    F32.toRat (baseConstant mode i) = some ((2 : ℚ) ^ baseExponent mode i) ∧
    F32.toRat ((MS5611_Init hi2c mode.code w).coeff i)
      = some ((2 : ℚ) ^ baseExponent mode i * (promWord hi2c w i.val : ℚ)) := by
  have hr := baseExponent_range mode i
  have hmul : (MS5611_Init hi2c mode.code w).coeff i
      = F32.mul (F32.finite false (2 ^ 23) (baseExponent mode i - 23))
          (F32.ofNat (promWord hi2c w i.val)) := by
    rw [Init_unfold]
    show F32.mul _ _ = _
    rw [setupTable_pow2]
  refine ⟨?_, ?_, ?_⟩
  · rw [hmul, baseConstant_pow2]
  · rw [baseConstant_pow2]
    have h2 : (2 : ℚ) ≠ 0 := by norm_num
    simp only [F32.toRat, Bool.false_eq_true, if_false, one_mul]
    rw [zpow_sub₀ h2]
    norm_num
    field_simp
  · rw [hmul]
    exact F32.toRat_mul_pow2_ofNat _ _ (word16_lt _) hr.1 hr.2

/-- C3: the two thresholds of `MS5611_Measure` are strict.  When the
first-order `TEMP` equals 2000 exactly, the outputs are those of the
first-order `TEMP`, `OFF` and `SENS`, without any correction.  When
`-1500 <= TEMP` and `TEMP < 2000` (so also at `TEMP = -1500` exactly), the
outputs are those of `TEMP - T2`, `OFF - 2.5 * d` and `SENS - 1.25 * d` with
`d = (TEMP - 2000)^2`, without the extra cold term. -/
theorem C3_thresholds_strict (hi2c : I2C_HandleTypeDef) (w : World) :
    (MS5611_Measure_TEMP w.coeff (rawD2 hi2c w) = F32.ofInt 2000 →
      ((MS5611_Measure hi2c w).temperature, (MS5611_Measure hi2c w).pressure)
        = MS5611_Measure_output (rawD1 hi2c w)
            (MS5611_Measure_TEMP w.coeff (rawD2 hi2c w))
            (MS5611_Measure_OFF w.coeff (rawD2 hi2c w))
            (MS5611_Measure_SENS w.coeff (rawD2 hi2c w))) ∧
    (F32.le (F32.ofInt (-1500)) (MS5611_Measure_TEMP w.coeff (rawD2 hi2c w)) = true →
      F32.lt (MS5611_Measure_TEMP w.coeff (rawD2 hi2c w)) (F32.ofInt 2000) = true →
      ((MS5611_Measure hi2c w).temperature, (MS5611_Measure hi2c w).pressure)
        = MS5611_Measure_output (rawD1 hi2c w)
            (F32.sub (MS5611_Measure_TEMP w.coeff (rawD2 hi2c w))
              (F32.mul (F32.mul (MS5611_Measure_dT w.coeff (rawD2 hi2c w))
                (MS5611_Measure_dT w.coeff (rawD2 hi2c w))) (F32.ofDecimal 46566128731 (-20))))
            (F32.sub (MS5611_Measure_OFF w.coeff (rawD2 hi2c w))
              (F32.mul (F32.ofDecimal 25 (-1))
                (F32.mul
                  (F32.sub (MS5611_Measure_TEMP w.coeff (rawD2 hi2c w)) (F32.ofInt 2000))
                  (F32.sub (MS5611_Measure_TEMP w.coeff (rawD2 hi2c w)) (F32.ofInt 2000)))))
            (F32.sub (MS5611_Measure_SENS w.coeff (rawD2 hi2c w))
              (F32.mul (F32.ofDecimal 125 (-2))
                (F32.mul
                  (F32.sub (MS5611_Measure_TEMP w.coeff (rawD2 hi2c w)) (F32.ofInt 2000))
                  (F32.sub (MS5611_Measure_TEMP w.coeff (rawD2 hi2c w)) (F32.ofInt 2000)))))) := by
  constructor
  · intro h
    rw [Measure_out]
    unfold MS5611_Measure_calc
    simp only [h, F32.lt_irrefl, Bool.false_eq_true, if_false]
  · intro hle hlt
    have hcold := F32.lt_of_le_false _ _ hle
    rw [Measure_out]
    unfold MS5611_Measure_calc
    simp only [hlt, hcold, Bool.false_eq_true, if_true, if_false]

/-- Witness of C3 at three inputs: `D2 = 8566784 = C5 * 256` (so `dT = 0` and
`TEMP = 2000` exactly); `D2 = 7518208` with `coldCoeff` (so `dT = -2^20` and
`TEMP = -1500` exactly); `D2 = 8566783` (so `dT = -1` and `TEMP` just below
2000). -/
theorem C3_thresholds_strict_witness :
    (MS5611_Measure_TEMP sampleCoeff 8566784 = F32.ofInt 2000 ∧
     MS5611_Measure_TEMP coldCoeff 7518208 = F32.ofInt (-1500) ∧
     F32.lt (MS5611_Measure_TEMP sampleCoeff 8566783) (F32.ofInt 2000) = true) ∧
    ((MS5611_Measure (deviceWithReadings [0x8A, 0xA2, 0x1A] [0x82, 0xB8, 0x00])
        sampleWorld).temperature = F32.ofDecimal 20 0 ∧
     (MS5611_Measure (deviceWithReadings [0x8A, 0xA2, 0x1A] [0x72, 0xB8, 0x00])
        coldWorld).temperature
        = F32.mul (F32.sub (F32.ofInt (-1500)) (F32.ofInt 512)) (F32.ofDecimal 1 (-2)) ∧
     (MS5611_Measure (deviceWithReadings [0x8A, 0xA2, 0x1A] [0x82, 0xB7, 0xFF])
        sampleWorld).temperature
        = F32.mul (F32.sub (MS5611_Measure_TEMP sampleCoeff 8566783)
            (F32.ofDecimal 46566128731 (-20))) (F32.ofDecimal 1 (-2))) :=
  ⟨⟨by decide, by decide, by decide⟩,
   by
    have h1 := (C3_thresholds_strict (deviceWithReadings [0x8A, 0xA2, 0x1A] [0x82, 0xB8, 0x00])
      sampleWorld).1 (by decide)
    have h2 := (C3_thresholds_strict (deviceWithReadings [0x8A, 0xA2, 0x1A] [0x72, 0xB8, 0x00])
      coldWorld).2 (by decide) (by decide)
    have h3 := (C3_thresholds_strict (deviceWithReadings [0x8A, 0xA2, 0x1A] [0x82, 0xB7, 0xFF])
      sampleWorld).2 (by decide) (by decide)
    exact ⟨(congrArg Prod.fst h1).trans (by decide), (congrArg Prod.fst h2).trans (by decide),
      (congrArg Prod.fst h3).trans (by decide)⟩⟩

/-- C4, as stated, fails: with the example coefficients and `D2 = 8569150` the
first-order `TEMP` is not within 0.01 of 3017.17, and the temperature output
is not within 0.01 of 30.17. -/
theorem C4_example_counterexample :
    ∃ q t : ℚ,
      F32.toRat (MS5611_Measure_TEMP exampleCoeff 8569150) = some q ∧
      ¬ (|q - 3017.17| ≤ 0.01) ∧
      F32.toRat (MS5611_Measure sampleDevice exampleWorld).temperature = some t ∧
      ¬ (|t - 30.17| ≤ 0.01) := by
  have hT : MS5611_Measure_TEMP exampleCoeff 8569150 = F32.finite false 16392336 (-13) := by
    decide
  have ht : (MS5611_Measure sampleDevice exampleWorld).temperature
      = F32.finite false 10491095 (-19) := by
    rw [Measure_unfold]; decide
  refine ⟨16392336 * (2 : ℚ) ^ (-13 : Int), 10491095 * (2 : ℚ) ^ (-19 : Int), ?_, ?_, ?_, ?_⟩
  · rw [hT]; simp [F32.toRat]
  · rw [abs_le]; norm_num
  · rw [ht]; simp [F32.toRat]
  · rw [abs_le]; norm_num

/-- C4, amended: with the example coefficients and `D2 = 8569150` (any `D1`),
`dT = 8536150`, the first-order `TEMP` is within 0.01 of 2001.02, it is not
below 2000, so the outputs are those of the first-order values without
correction, and the temperature output is within 0.01 of 20.01. -/
theorem C4_example_amended (hi2c : I2C_HandleTypeDef) (w : World)
    (hC : w.coeff = exampleCoeff) (hD2 : rawD2 hi2c w = 8569150) :
    MS5611_Measure_dT w.coeff (rawD2 hi2c w) = F32.ofNat 8536150 ∧
    (∃ q : ℚ, F32.toRat (MS5611_Measure_TEMP w.coeff (rawD2 hi2c w)) = some q ∧
      |q - 2001.02| ≤ 0.01) ∧
    F32.lt (MS5611_Measure_TEMP w.coeff (rawD2 hi2c w)) (F32.ofInt 2000) = false ∧
    ((MS5611_Measure hi2c w).temperature, (MS5611_Measure hi2c w).pressure)
      = MS5611_Measure_output (rawD1 hi2c w)
          (MS5611_Measure_TEMP w.coeff (rawD2 hi2c w))
          (MS5611_Measure_OFF w.coeff (rawD2 hi2c w))
          (MS5611_Measure_SENS w.coeff (rawD2 hi2c w)) ∧
    (∃ t : ℚ, F32.toRat (MS5611_Measure hi2c w).temperature = some t ∧
      |t - 20.01| ≤ 0.01) := by
  have hT : MS5611_Measure_TEMP exampleCoeff 8569150 = F32.finite false 16392336 (-13) := by
    decide
  have hlt : F32.lt (MS5611_Measure_TEMP exampleCoeff 8569150) (F32.ofInt 2000) = false := by
    decide
  have hout : ((MS5611_Measure hi2c w).temperature, (MS5611_Measure hi2c w).pressure)
      = MS5611_Measure_output (rawD1 hi2c w)
          (MS5611_Measure_TEMP exampleCoeff 8569150)
          (MS5611_Measure_OFF exampleCoeff 8569150)
          (MS5611_Measure_SENS exampleCoeff 8569150) := by
    rw [Measure_out, hC, hD2]
    unfold MS5611_Measure_calc
    simp only [hlt, Bool.false_eq_true, if_false]
  have htemp : (MS5611_Measure hi2c w).temperature = F32.finite false 10491095 (-19) :=
    (congrArg Prod.fst hout).trans
      (show F32.mul (MS5611_Measure_TEMP exampleCoeff 8569150) (F32.ofDecimal 1 (-2))
        = F32.finite false 10491095 (-19) by decide)
  rw [hC, hD2]
  refine ⟨by decide, ⟨16392336 * (2 : ℚ) ^ (-13 : Int), ?_, ?_⟩, hlt, hout,
    ⟨10491095 * (2 : ℚ) ^ (-19 : Int), ?_, ?_⟩⟩
  · rw [hT]; simp [F32.toRat]
  · rw [abs_le]; norm_num
  · rw [htemp]; simp [F32.toRat]
  · rw [abs_le]; norm_num

/-- Witness of the amended C4 on the sample device, which delivers
`D2 = 8569150`. -/
theorem C4_example_amended_witness :
    (exampleWorld.coeff = exampleCoeff ∧ rawD2 sampleDevice exampleWorld = 8569150) ∧
    ∃ t : ℚ, F32.toRat (MS5611_Measure sampleDevice exampleWorld).temperature = some t ∧
      |t - 20.01| ≤ 0.01 :=
  ⟨⟨rfl, by decide⟩,
   (C4_example_amended sampleDevice exampleWorld rfl (by decide)).2.2.2.2⟩

/-- C5, as stated, fails: on a device whose read of PROM word 3 fails,
`MS5611_Init` started with the sample coefficients still changes the
coefficients seen by later calls (here `coeff[3]` and `coeff[0]`), instead of
leaving the state as it was. -/
theorem C5_init_failure_counterexample :
    (replyPROM faultyPromDevice sampleWorld 3).status = HAL_StatusTypeDef.HAL_ERROR ∧
    (MS5611_Init faultyPromDevice 0 sampleWorld).coeff 3 ≠ sampleWorld.coeff 3 ∧
    (MS5611_Init faultyPromDevice 0 sampleWorld).coeff 0 ≠ sampleWorld.coeff 0 := by
  rw [Init_unfold]
  decide

/-- C5, amended: `MS5611_Init` has no failure path.  When the read of a PROM
word fails, it still makes all nine HAL calls and still overwrites every
coefficient with the product of its base constant and the 16-bit word found
in the receive buffer of its read; the resulting state is the one reached on
any device that leaves the same bytes in the buffers, whatever the statuses. -/
theorem C5_init_failure_amended (mode : MathMode) (hi2c : I2C_HandleTypeDef) (w : World)
    (k : Fin 7) (_hfail : (replyPROM hi2c w k.val).status ≠ HAL_StatusTypeDef.HAL_OK) :
    (MS5611_Init hi2c mode.code w).trace = w.trace ++ initCalls ∧
    (∀ i : Fin 7, (MS5611_Init hi2c mode.code w).coeff i
      = F32.mul (baseConstant mode i) (F32.ofNat (promWord hi2c w i.val))) ∧
    (∀ hi2c' : I2C_HandleTypeDef,
      (∀ hist call, (hi2c'.reply hist call).buf = (hi2c.reply hist call).buf) →
      MS5611_Init hi2c' mode.code w = MS5611_Init hi2c mode.code w) := by
  refine ⟨?_, ?_, ?_⟩
  · rw [Init_unfold]
  · intro i
    rw [Init_unfold, baseConstant_pow2, ← setupTable_pow2]
  · intro hi2c' hbuf
    rw [Init_unfold, Init_unfold]
    simp only [promWord, replyPROM, word16, hbuf]

/-- Witness of the amended C5: the device whose read of PROM word 3 fails,
compared with a device that succeeds and leaves the same bytes. -/
theorem C5_init_failure_amended_witness :
    (replyPROM faultyPromDevice sampleWorld 3).status ≠ HAL_StatusTypeDef.HAL_OK ∧
    (MS5611_Init faultyPromDevice 0 sampleWorld).trace = initCalls ∧
    (MS5611_Init faultyPromDevice 0 sampleWorld).coeff 3
      = F32.mul (baseConstant MathMode.Default 3) (F32.ofNat 0xFFFF) :=
  ⟨by decide,
   (C5_init_failure_amended MathMode.Default faultyPromDevice sampleWorld 3 (by decide)).1,
   ((C5_init_failure_amended MathMode.Default faultyPromDevice sampleWorld 3
      (by decide)).2.1 3).trans (by decide)⟩

/-- C6, as stated, fails: on a device whose first ADC read succeeds and whose
second ADC read fails, `MS5611_Measure` still writes both outputs. -/
theorem C6_measure_failure_counterexample :
    (replyD1 faultyAdcDevice sampleWorld).status = HAL_StatusTypeDef.HAL_OK ∧
    (replyD2 faultyAdcDevice sampleWorld).status = HAL_StatusTypeDef.HAL_ERROR ∧
    (MS5611_Measure faultyAdcDevice sampleWorld).temperature ≠ sampleWorld.temperature ∧
    (MS5611_Measure faultyAdcDevice sampleWorld).pressure ≠ sampleWorld.pressure := by
  rw [Measure_unfold]
  decide

/-- C6, amended: `MS5611_Measure` has no failure path.  When the read of the
temperature conversion fails after the pressure conversion was read
successfully, it still makes all six HAL calls and still writes both outputs:
the compensation of `D1` and of the 24-bit number found in the receive buffer
of the failed read; the resulting state is the one reached on any device that
leaves the same bytes in the buffers, whatever the statuses. -/
theorem C6_measure_failure_amended (hi2c : I2C_HandleTypeDef) (w : World)
    (_hok : (replyD1 hi2c w).status = HAL_StatusTypeDef.HAL_OK)
    (_hfail : (replyD2 hi2c w).status ≠ HAL_StatusTypeDef.HAL_OK) :
    (MS5611_Measure hi2c w).trace = w.trace ++ measureCalls ∧
    ((MS5611_Measure hi2c w).temperature, (MS5611_Measure hi2c w).pressure)
      = MS5611_Measure_calc w.coeff (rawD1 hi2c w) (word24 (replyD2 hi2c w)) ∧
    (∀ hi2c' : I2C_HandleTypeDef,
      (∀ hist call, (hi2c'.reply hist call).buf = (hi2c.reply hist call).buf) →
      MS5611_Measure hi2c' w = MS5611_Measure hi2c w) := by
  refine ⟨Measure_trace hi2c w, Measure_out hi2c w, ?_⟩
  intro hi2c' hbuf
  rw [Measure_unfold, Measure_unfold]
  simp only [rawD1, rawD2, replyD1, replyD2, word24, hbuf]

/-- Witness of the amended C6: the device whose second ADC read fails leaves
`0x82, 0xC1, 0x3E` in the buffer, and the outputs are those of
`D2 = 8569150`. -/
theorem C6_measure_failure_amended_witness :
    ((replyD1 faultyAdcDevice sampleWorld).status = HAL_StatusTypeDef.HAL_OK ∧
     (replyD2 faultyAdcDevice sampleWorld).status ≠ HAL_StatusTypeDef.HAL_OK) ∧
    ((MS5611_Measure faultyAdcDevice sampleWorld).temperature,
     (MS5611_Measure faultyAdcDevice sampleWorld).pressure)
      = MS5611_Measure_calc sampleCoeff 9085466 8569150 :=
  ⟨⟨by decide, by decide⟩,
   (C6_measure_failure_amended faultyAdcDevice sampleWorld (by decide) (by decide)).2.1⟩

/-- C7, as stated, fails: on a blank PROM (all words zero) the two modes give
the same `coeff[1]`, `coeff[2]`, `coeff[3]` and `coeff[4]`. -/
theorem C7_modes_counterexample :
    (MS5611_Init blankDevice 0 sampleWorld).coeff 1
      = (MS5611_Init blankDevice 1 sampleWorld).coeff 1 ∧
    (MS5611_Init blankDevice 0 sampleWorld).coeff 2
      = (MS5611_Init blankDevice 1 sampleWorld).coeff 2 ∧
    (MS5611_Init blankDevice 0 sampleWorld).coeff 3
      = (MS5611_Init blankDevice 1 sampleWorld).coeff 3 ∧
    (MS5611_Init blankDevice 0 sampleWorld).coeff 4
      = (MS5611_Init blankDevice 1 sampleWorld).coeff 4 := by
  rw [Init_unfold, Init_unfold]
  decide

/-- C7, amended: on the same device and from the same state, `MS5611_Init`
with `mathMode = 0` and with `mathMode = 1` gives the same `coeff[0]`,
`coeff[5]` and `coeff[6]`, and at each index `i` of 1, 2, 3, 4 the two
coefficients differ exactly when the PROM word `w[i]` is not zero. -/
theorem C7_modes_amended (hi2c : I2C_HandleTypeDef) (w : World) :
    ((MS5611_Init hi2c 0 w).coeff 0 = (MS5611_Init hi2c 1 w).coeff 0 ∧
     (MS5611_Init hi2c 0 w).coeff 5 = (MS5611_Init hi2c 1 w).coeff 5 ∧
     (MS5611_Init hi2c 0 w).coeff 6 = (MS5611_Init hi2c 1 w).coeff 6) ∧
    (((MS5611_Init hi2c 0 w).coeff 1 ≠ (MS5611_Init hi2c 1 w).coeff 1
        ↔ promWord hi2c w 1 ≠ 0) ∧
     ((MS5611_Init hi2c 0 w).coeff 2 ≠ (MS5611_Init hi2c 1 w).coeff 2
        ↔ promWord hi2c w 2 ≠ 0) ∧
     ((MS5611_Init hi2c 0 w).coeff 3 ≠ (MS5611_Init hi2c 1 w).coeff 3
        ↔ promWord hi2c w 3 ≠ 0) ∧
     ((MS5611_Init hi2c 0 w).coeff 4 ≠ (MS5611_Init hi2c 1 w).coeff 4
        ↔ promWord hi2c w 4 ≠ 0)) := by
  have e0 : baseExponent MathMode.Default 0 = baseExponent MathMode.ApplicationNote 0 := by
    decide
  have e5 : baseExponent MathMode.Default 5 = baseExponent MathMode.ApplicationNote 5 := by
    decide
  have e6 : baseExponent MathMode.Default 6 = baseExponent MathMode.ApplicationNote 6 := by
    decide
  have n1 : baseExponent MathMode.Default 1 ≠ baseExponent MathMode.ApplicationNote 1 := by
    decide
  have n2 : baseExponent MathMode.Default 2 ≠ baseExponent MathMode.ApplicationNote 2 := by
    decide
  have n3 : baseExponent MathMode.Default 3 ≠ baseExponent MathMode.ApplicationNote 3 := by
    decide
  have n4 : baseExponent MathMode.Default 4 ≠ baseExponent MathMode.ApplicationNote 4 := by
    decide
  refine ⟨⟨?_, ?_, ?_⟩, ?_, ?_, ?_, ?_⟩
  · exact not_not.mp (fun h => ((Init_modes_differ_iff hi2c w 0).mp h).1 e0)
  · exact not_not.mp (fun h => ((Init_modes_differ_iff hi2c w 5).mp h).1 e5)
  · exact not_not.mp (fun h => ((Init_modes_differ_iff hi2c w 6).mp h).1 e6)
  · exact (Init_modes_differ_iff hi2c w 1).trans ⟨fun h => h.2, fun h => ⟨n1, h⟩⟩
  · exact (Init_modes_differ_iff hi2c w 2).trans ⟨fun h => h.2, fun h => ⟨n2, h⟩⟩
  · exact (Init_modes_differ_iff hi2c w 3).trans ⟨fun h => h.2, fun h => ⟨n3, h⟩⟩
  · exact (Init_modes_differ_iff hi2c w 4).trans ⟨fun h => h.2, fun h => ⟨n4, h⟩⟩

/-- Instance of the amended C7 on the device with the data-sheet PROM words,
all non-zero at the indices 1 to 4: the two modes differ there. -/
theorem C7_modes_amended_witness :
    (MS5611_Init faultyPromDevice 0 sampleWorld).coeff 1
      ≠ (MS5611_Init faultyPromDevice 1 sampleWorld).coeff 1 ∧
    (MS5611_Init faultyPromDevice 0 sampleWorld).coeff 4
      ≠ (MS5611_Init faultyPromDevice 1 sampleWorld).coeff 4 :=
  ⟨(C7_modes_amended faultyPromDevice sampleWorld).2.1.mpr (by decide),
   (C7_modes_amended faultyPromDevice sampleWorld).2.2.2.2.mpr (by decide)⟩

end MS5611
